import Mathlib

/-!
Shallow embedding of the Tennis-Ball-Simulator physics core (src/main.cpp,
single-court build: constants at lines 611-639, `TennisBall` at lines 740-920,
relaunch and player-interaction logic in `D2DApp::Update` at lines 1092-1180).

The C++ code computes over IEEE floats with `sqrt`, `cos` and `sin`; the
embedding uses exact real arithmetic (`ℝ`, `Real.sqrt`, `Real.cos`,
`Real.sin`) with the source's literal constants as exact rationals, so every
arithmetic identity below is exact where the float code only approximates.
The calls to `rand()` are modelled by explicit natural-number parameters fed
through the same `% n` reductions as the source.
-/

namespace TennisSim

/-- struct BounceData (main.cpp:723): a (time, height) sample. -/
structure BounceData where
  time : ℝ
  height : ℝ

/-- struct CourtSurface (main.cpp:698), physics fields only: the identity,
name and colour fields have no physical content. -/
structure CourtSurface where
  coefficientOfRestitution : ℝ
  friction : ℝ

/-- class TennisBall's data members (main.cpp:742-753). -/
structure TennisBall where
  y : ℝ
  vy : ℝ
  x : ℝ
  vx : ℝ
  time : ℝ
  bounceCount : ℕ
  isActive : Bool
  surface : CourtSurface
  airResistanceCoeff : ℝ
  spinRPM : ℝ
  trajectory : List BounceData
  bounces : List BounceData

/-- const float GRAVITY = 9.81f (main.cpp:611). -/
noncomputable def GRAVITY : ℝ := 9.81

/-- const float BALL_RADIUS = 0.0335f (main.cpp:612). -/
noncomputable def BALL_RADIUS : ℝ := 0.0335

/-- const float INITIAL_HEIGHT = 2.0f (main.cpp:613). -/
noncomputable def INITIAL_HEIGHT : ℝ := 2

/-- const float COURT_LENGTH = 23.77f (main.cpp:622). -/
noncomputable def COURT_LENGTH : ℝ := 23.77

/-- const float NET_HEIGHT = 0.914f (main.cpp:623). -/
noncomputable def NET_HEIGHT : ℝ := 0.914

/-- const float BALL_MASS = 0.058f (main.cpp:624). -/
noncomputable def BALL_MASS : ℝ := 0.058

/-- const float MAX_HORIZONTAL_FORCE = 1000.0f (main.cpp:626). -/
noncomputable def MAX_HORIZONTAL_FORCE : ℝ := 1000

/-- const int WINDOW_WIDTH = 640 (main.cpp:615). -/
noncomputable def WINDOW_WIDTH : ℝ := 640

/-- const float NET_X = COURT_LENGTH / 2.0f (main.cpp:843). -/
noncomputable def NET_X : ℝ := COURT_LENGTH / 2

/-- const float NET_ABSORPTION = 0.80f (main.cpp:844). -/
noncomputable def NET_ABSORPTION : ℝ := 0.80

/-- The float literal 3.14159265f used for pi throughout main.cpp. -/
noncomputable def PI_LITERAL : ℝ := 3.14159265

/-- float magnusCoeff = 0.00015f (main.cpp:821). -/
noncomputable def MAGNUS_COEFF : ℝ := 0.00015

/-- Roland Garros clay, courts[0] (main.cpp:709): restitution 0.75, friction 0.6. -/
noncomputable def clayCourt : CourtSurface := ⟨0.75, 0.6⟩

/-- TennisBall::reset (main.cpp:762-774): restore the drop state and clear
both histories, then record the initial (time, y) sample.  `surface`,
`airResistanceCoeff` and `spinRPM` are untouched, exactly as in the source. -/
noncomputable def reset (b : TennisBall) : TennisBall :=
  { b with y := INITIAL_HEIGHT, vy := 0, x := 0, vx := 0, time := 0,
           bounceCount := 0, isActive := true,
           trajectory := [⟨0, INITIAL_HEIGHT⟩], bounces := [] }

/-- TennisBall::resetForHorizontalShot (main.cpp:776-797). -/
noncomputable def resetForHorizontalShot (horizontalForce angleDegrees spin : ℝ)
    (b : TennisBall) : TennisBall :=
  let x0 := (20 / (WINDOW_WIDTH - 100)) * COURT_LENGTH
  let totalVelocity := (horizontalForce / MAX_HORIZONTAL_FORCE) * 50
  let angleRad := angleDegrees * PI_LITERAL / 180
  { b with x := x0, y := 1,
           vx := totalVelocity * Real.cos angleRad,
           vy := totalVelocity * Real.sin angleRad,
           spinRPM := spin, time := 0, bounceCount := 0, isActive := true,
           trajectory := [⟨0, 1⟩], bounces := [] }

/-- The integration part of TennisBall::update (main.cpp:810-840): gravity,
the Magnus term guarded by ballSpeed > 0.1, quadratic air drag, and the
semi-implicit position update.  `ballSpeed` is computed after the gravity
update of vy and before the drag update of vx, as in the source. -/
noncomputable def integrate (dt : ℝ) (b : TennisBall) : TennisBall :=
  let time1 := b.time + dt
  let vyGrav := b.vy - GRAVITY * dt
  let omega := b.spinRPM * 2 * PI_LITERAL / 60
  let ballSpeed := Real.sqrt (b.vx * b.vx + vyGrav * vyGrav)
  let vy1 := if ballSpeed > 0.1
    then vyGrav - (MAGNUS_COEFF * omega * ballSpeed / BALL_MASS) * dt
    else vyGrav
  let y1 := b.y + vy1 * dt
  let vx1 := b.vx + (-b.airResistanceCoeff * b.vx * |b.vx| / BALL_MASS) * dt
  let x1 := b.x + vx1 * dt
  { b with time := time1, vy := vy1, y := y1, vx := vx1, x := x1 }

/-- The net-plane crossing predicate of main.cpp:847. -/
def crossedNet (prevX x : ℝ) : Prop :=
  (prevX < NET_X ∧ x ≥ NET_X) ∨ (prevX > NET_X ∧ x ≤ NET_X)

/-- The random vertical deflection of main.cpp:869:
((rand() % 100) / 100.0f - 0.5f) * 0.3f, with the rand() value as argument. -/
noncomputable def randomDeflection (r : ℕ) : ℝ := ((r % 100 : ℕ) / 100 - 0.5) * 0.3

open Classical in
/-- The net-collision block of TennisBall::update (main.cpp:842-880),
applied to the post-integration ball, with the pre-integration position
passed in as (prevX, prevY) and the rand() draw as r. -/
noncomputable def netCheck (prevX prevY : ℝ) (r : ℕ) (b : TennisBall) : TennisBall :=
  if crossedNet prevX b.x then
    let t := (NET_X - prevX) / (b.x - prevX)
    let collisionY := prevY + t * (b.y - prevY)
    if collisionY ≤ NET_HEIGHT + BALL_RADIUS then
      let vx1 := -b.vx * (1 - NET_ABSORPTION)
      let vy1 := b.vy * (1 - NET_ABSORPTION) + randomDeflection r
      let spin1 := b.spinRPM * (1 - NET_ABSORPTION)
      let vx2 := if |vx1| < 0.5 ∧ |vy1| < 0.5 then 0 else vx1
      { b with x := NET_X, y := collisionY, vx := vx2, vy := vy1, spinRPM := spin1 }
    else b
  else b

/-- trajectory.push_back({time, y}) (main.cpp:883). -/
noncomputable def recordTrajectory (b : TennisBall) : TennisBall :=
  { b with trajectory := b.trajectory ++ [⟨b.time, b.y⟩] }

open Classical in
/-- The ground-collision block of TennisBall::update (main.cpp:886-913):
clamp y, record up to three bounces, restitution, fixed 0.8 horizontal
damping, spin kick computed from the pre-decay spin, spin decay, bounce
count increment, then the terminal check on the updated vy and count. -/
noncomputable def groundCheck (b : TennisBall) : TennisBall :=
  if b.y ≤ 0 then
    let bounces1 := if b.bounceCount < 3 then b.bounces ++ [⟨b.time, 0⟩] else b.bounces
    let vy1 := -b.vy * b.surface.coefficientOfRestitution
    let vx1 := b.vx * 0.8 + (b.spinRPM / 5000) * 2
    let spin1 := b.spinRPM * 0.7
    let bc1 := b.bounceCount + 1
    if |vy1| < 0.1 ∨ bc1 > 10 then
      { b with y := 0, bounces := bounces1, vy := 0, vx := 0,
               spinRPM := spin1, bounceCount := bc1, isActive := false }
    else
      { b with y := 0, bounces := bounces1, vy := vy1, vx := vx1,
               spinRPM := spin1, bounceCount := bc1 }
  else b

open Classical in
/-- The out-of-bounds check of TennisBall::update (main.cpp:916-918). -/
noncomputable def outOfBoundsCheck (b : TennisBall) : TennisBall :=
  if b.x < 0 ∨ b.x > COURT_LENGTH then { b with isActive := false } else b

/-- TennisBall::update (main.cpp:803-919): early return when inactive, else
integration, net check against the pre-step position, trajectory record,
ground check, out-of-bounds check, in source order.  r is the tick's
rand() draw (consumed only on a net hit). -/
noncomputable def update (dt : ℝ) (r : ℕ) (b : TennisBall) : TennisBall :=
  if b.isActive then
    outOfBoundsCheck (groundCheck (recordTrajectory (netCheck b.x b.y r (integrate dt b))))
  else b

/-- n ticks of update with a fixed step and a fixed rand() draw. -/
noncomputable def iterateUpdate (dt : ℝ) (r : ℕ) : ℕ → TennisBall → TennisBall
  | 0, b => b
  | n + 1, b => update dt r (iterateUpdate dt r n b)

/-- A run of ticks, each with its own step and rand() draw. -/
noncomputable def runTicks : List (ℝ × ℕ) → TennisBall → TennisBall
  | [], b => b
  | p :: rest, b => runTicks rest (update p.1 p.2 b)

/-- The relaunch force draw, main.cpp:1135: 200.0f + (rand() % 201). -/
def drawRelaunchForce (r : ℕ) : ℚ := 200 + (r % 201 : ℕ)

/-- The relaunch angle draw, main.cpp:1137: 9.0f + (rand() % 31). -/
def drawRelaunchAngle (r : ℕ) : ℚ := 9 + (r % 31 : ℕ)

/-- The relaunch spin draw, main.cpp:1139: 60.0f + (rand() % 541). -/
def drawRelaunchSpin (r : ℕ) : ℚ := 60 + (r % 541 : ℕ)

/-- The pause bookkeeping of D2DApp touched by the cancellation branch. -/
structure PauseFlags where
  simulationPaused : Bool
  ballHitRighty : Bool

/-- The dialog-cancelled branch of D2DApp::Update (main.cpp:1166-1172):
vx = -vx * 0.5f, x = rightyPosition - 0.1f, resume the simulation and
clear the hit flag. -/
noncomputable def cancelRightyHit (rightyPosition : ℝ) (b : TennisBall) :
    TennisBall × PauseFlags :=
  ({ b with vx := -b.vx * 0.5, x := rightyPosition - 0.1 },
   { simulationPaused := false, ballHitRighty := false })

/-- The bounce-count invariant maintained by the tick loop: an active ball
has bounced at most 10 times, and no ball ever records more than 11. -/
def bcInv (b : TennisBall) : Prop :=
  (b.isActive = true → b.bounceCount ≤ 10) ∧ b.bounceCount ≤ 11

/-- A tick is collision-free when the integrated position neither crosses
the net plane nor reaches the ground nor leaves the court. -/
def freeStep (dt : ℝ) (b : TennisBall) : Prop :=
  ¬ crossedNet b.x (integrate dt b).x ∧ 0 < (integrate dt b).y ∧
  0 ≤ (integrate dt b).x ∧ (integrate dt b).x ≤ COURT_LENGTH

/-- A ball already at rest (lifecycle flag cleared). -/
noncomputable def restingBall : TennisBall :=
  ⟨0, 0, 5, 0, 3, 4, false, clayCourt, 0, 0, [], []⟩

/-- A post-integration state that has just crossed the net plane below the
tape: previous position (11, 0.5), current (12, 0.5), vx = 10. -/
noncomputable def ballNetHit : TennisBall :=
  ⟨0.5, -1, 12, 10, 1, 0, true, clayCourt, 0, 1000, [], []⟩

/-- A post-integration state that has crossed the net plane at height 5,
well above the tape. -/
noncomputable def ballClearsNet : TennisBall :=
  ⟨5, -1, 12, 10, 1, 0, true, clayCourt, 0, 0, [], []⟩

/-- A post-integration state at y = -0.1 about to take its third bounce. -/
noncomputable def ballAtGround : TennisBall :=
  ⟨-0.1, -4, 8, 3, 1, 2, true, clayCourt, 0, 1000, [], []⟩

/-- A post-integration state whose bounce will leave |vy| below 0.1. -/
noncomputable def ballTerminal : TennisBall :=
  ⟨0, -0.05, 8, 1, 1, 0, true, clayCourt, 0, 0, [], []⟩

/-- A spinless, dragless ball thrown upward at 10 m/s from height 2. -/
noncomputable def ballParabola : TennisBall :=
  ⟨2, 10, 0, 0, 0, 0, true, clayCourt, 0, 0, [⟨0, 2⟩], []⟩

theorem integrate_bounceCount (dt : ℝ) (b : TennisBall) :
    (integrate dt b).bounceCount = b.bounceCount := rfl

theorem integrate_isActive (dt : ℝ) (b : TennisBall) :
    (integrate dt b).isActive = b.isActive := rfl

theorem recordTrajectory_bounceCount (b : TennisBall) :
    (recordTrajectory b).bounceCount = b.bounceCount := rfl

theorem recordTrajectory_y (b : TennisBall) : (recordTrajectory b).y = b.y := rfl

theorem recordTrajectory_x (b : TennisBall) : (recordTrajectory b).x = b.x := rfl

theorem netCheck_bounceCount (prevX prevY : ℝ) (r : ℕ) (b : TennisBall) :
    (netCheck prevX prevY r b).bounceCount = b.bounceCount := by
  simp only [netCheck]
  split_ifs <;> rfl

/-- C9: reset is idempotent and yields height 2, x = 0, zero velocities,
zero elapsed time, zero bounce count, active lifecycle, the single initial
trajectory sample (0, 2) and an empty bounce history. -/
theorem reset_idempotent (b : TennisBall) :
    reset (reset b) = reset b ∧ (reset b).y = 2 ∧ (reset b).x = 0 ∧
    (reset b).vy = 0 ∧ (reset b).vx = 0 ∧ (reset b).time = 0 ∧
    (reset b).bounceCount = 0 ∧ (reset b).isActive = true ∧
    (reset b).trajectory = [⟨0, 2⟩] ∧ (reset b).bounces = [] :=
  ⟨rfl, rfl, rfl, rfl, rfl, rfl, rfl, rfl, rfl, rfl⟩

/-- C10: for every inactive ball and every step, update returns the ball
unchanged in all fields: the early return makes update total outside the
Flying state. -/
theorem update_inactive_noop (dt : ℝ) (r : ℕ) (b : TennisBall)
    (h : b.isActive = false) : update dt r b = b := by
  simp [update, h]

/-- C10 witness: a concrete resting ball is untouched by an update tick. -/
theorem update_inactive_noop_witness : update 1 0 restingBall = restingBall :=
  update_inactive_noop 1 0 restingBall rfl

/-- C7: the dialog-cancellation handler exactly halves and reverses vx,
repositions x to rightyPosition - 0.1, resumes the simulation (pause and
hit flags cleared), and leaves y, vy, spin, bounce count and both
histories unchanged. -/
theorem cancel_righty_hit_effect (p : ℝ) (b : TennisBall) :
    (cancelRightyHit p b).1.vx = -0.5 * b.vx ∧
    (cancelRightyHit p b).1.x = p - 0.1 ∧
    (cancelRightyHit p b).1.y = b.y ∧
    (cancelRightyHit p b).1.vy = b.vy ∧
    (cancelRightyHit p b).1.spinRPM = b.spinRPM ∧
    (cancelRightyHit p b).1.bounceCount = b.bounceCount ∧
    (cancelRightyHit p b).1.trajectory = b.trajectory ∧
    (cancelRightyHit p b).1.bounces = b.bounces ∧
    (cancelRightyHit p b).2.simulationPaused = false ∧
    (cancelRightyHit p b).2.ballHitRighty = false :=
  ⟨by simp [cancelRightyHit]; ring, rfl, rfl, rfl, rfl, rfl, rfl, rfl, rfl, rfl⟩

/-- C8: every division in the per-tick physics is by a nonzero quantity:
the Magnus and drag accelerations divide by BALL_MASS = 0.058 which is
nonzero, and the net-interpolation divisor x - prevX is nonzero whenever
the crossing predicate holds. -/
theorem update_divisors_nonzero :
    BALL_MASS ≠ 0 ∧ ∀ prevX x : ℝ, crossedNet prevX x → x - prevX ≠ 0 := by
  constructor
  · norm_num [BALL_MASS]
  · intro prevX x h
    rcases h with ⟨h1, h2⟩ | ⟨h1, h2⟩
    · exact sub_ne_zero_of_ne (ne_of_gt (lt_of_lt_of_le h1 h2))
    · exact sub_ne_zero_of_ne (ne_of_lt (lt_of_le_of_lt h2 h1))

/-- C8 witness: the crossing from x = 11 to x = 12 has nonzero divisor. -/
theorem update_divisors_nonzero_witness : (12 : ℝ) - 11 ≠ 0 :=
  update_divisors_nonzero.2 11 12 (by norm_num [crossedNet, NET_X, COURT_LENGTH])

/-- C2 counterexample: when the rand() draw is 200 the relaunch force is
exactly 400 N, which falls outside the claimed half-open range [200, 400). -/
theorem relaunch_force_not_half_open :
    drawRelaunchForce 200 = 400 ∧ ¬ drawRelaunchForce 200 < 400 := by
  norm_num [drawRelaunchForce]

/-- C2 amended: for every value of the pseudo-random source the relaunch
draws land in the closed ranges: force in [200, 400] N, angle an integer
number of degrees in [9, 39], and spin in [60, 600] RPM. -/
theorem relaunch_draw_ranges (r₁ r₂ r₃ : ℕ) :
    (200 ≤ drawRelaunchForce r₁ ∧ drawRelaunchForce r₁ ≤ 400) ∧
    ((∃ k : ℕ, drawRelaunchAngle r₂ = k) ∧
      9 ≤ drawRelaunchAngle r₂ ∧ drawRelaunchAngle r₂ ≤ 39) ∧
    (60 ≤ drawRelaunchSpin r₃ ∧ drawRelaunchSpin r₃ ≤ 600) := by
  have h1 : (r₁ % 201 : ℕ) ≤ 200 := Nat.lt_succ_iff.mp (Nat.mod_lt _ (by norm_num))
  have h2 : (r₂ % 31 : ℕ) ≤ 30 := Nat.lt_succ_iff.mp (Nat.mod_lt _ (by norm_num))
  have h3 : (r₃ % 541 : ℕ) ≤ 540 := Nat.lt_succ_iff.mp (Nat.mod_lt _ (by norm_num))
  have c1 : ((r₁ % 201 : ℕ) : ℚ) ≤ 200 := by exact_mod_cast h1
  have c2 : ((r₂ % 31 : ℕ) : ℚ) ≤ 30 := by exact_mod_cast h2
  have c3 : ((r₃ % 541 : ℕ) : ℚ) ≤ 540 := by exact_mod_cast h3
  have n1 : (0 : ℚ) ≤ ((r₁ % 201 : ℕ) : ℚ) := Nat.cast_nonneg _
  have n2 : (0 : ℚ) ≤ ((r₂ % 31 : ℕ) : ℚ) := Nat.cast_nonneg _
  have n3 : (0 : ℚ) ≤ ((r₃ % 541 : ℕ) : ℚ) := Nat.cast_nonneg _
  refine ⟨⟨?_, ?_⟩, ⟨⟨9 + r₂ % 31, ?_⟩, ?_, ?_⟩, ?_, ?_⟩ <;>
    simp only [drawRelaunchForce, drawRelaunchAngle, drawRelaunchSpin]
  · linarith
  · linarith
  · push_cast
    ring
  · linarith
  · linarith
  · linarith
  · linarith

theorem outOfBoundsCheck_bcInv (b : TennisBall) (h : bcInv b) :
    bcInv (outOfBoundsCheck b) := by
  unfold outOfBoundsCheck
  split_ifs
  · exact ⟨fun hab => absurd hab (by simp), h.2⟩
  · exact h

theorem groundCheck_bcInv (b : TennisBall) (hbc : b.bounceCount ≤ 10) :
    bcInv (groundCheck b) := by
  simp only [groundCheck]
  by_cases hy : b.y ≤ 0
  · rw [if_pos hy]
    by_cases hterm : |-b.vy * b.surface.coefficientOfRestitution| < 0.1 ∨
        b.bounceCount + 1 > 10
    · rw [if_pos hterm]
      refine ⟨fun hab => absurd hab (by simp), ?_⟩
      show b.bounceCount + 1 ≤ 11
      omega
    · rw [if_neg hterm]
      push_neg at hterm
      refine ⟨fun _ => ?_, ?_⟩
      · show b.bounceCount + 1 ≤ 10
        exact hterm.2
      · show b.bounceCount + 1 ≤ 11
        omega
  · rw [if_neg hy]
    exact ⟨fun _ => hbc, by omega⟩

theorem update_bcInv (dt : ℝ) (r : ℕ) (b : TennisBall) (h : bcInv b) :
    bcInv (update dt r b) := by
  unfold update
  by_cases hact : b.isActive = true
  · rw [if_pos hact]
    apply outOfBoundsCheck_bcInv
    apply groundCheck_bcInv
    rw [recordTrajectory_bounceCount, netCheck_bounceCount, integrate_bounceCount]
    exact h.1 hact
  · rw [if_neg hact]
    exact h

theorem runTicks_bcInv (l : List (ℝ × ℕ)) (b : TennisBall) (h : bcInv b) :
    bcInv (runTicks l b) := by
  induction l generalizing b with
  | nil => exact h
  | cons p rest ih => exact ih _ (update_bcInv p.1 p.2 b h)

theorem resetForHorizontalShot_bcInv (f a s : ℝ) (b : TennisBall) :
    bcInv (resetForHorizontalShot f a s b) := by
  constructor
  · intro _
    show (0 : ℕ) ≤ 10
    omega
  · show (0 : ℕ) ≤ 11
    omega

/-- C4: when a tick's integration leaves an active ball at y ≤ 0 and the
terminal check will not fire, ground resolution yields exactly y = 0,
vy = -vy * e with e the surface restitution, vx = 0.8 * vx plus the
spin-to-velocity kick (spin / 5000) * 2 with the fixed 0.8 damping (not
the surface friction field), spin multiplied by 0.7, and bounceCount
incremented by exactly one. -/
theorem ground_bounce_formula (b : TennisBall)
    (hact : b.isActive = true) (hy : b.y ≤ 0)
    (hterm : ¬(|-b.vy * b.surface.coefficientOfRestitution| < 0.1 ∨
               b.bounceCount + 1 > 10)) :
    (groundCheck b).y = 0 ∧
    (groundCheck b).vy = -b.vy * b.surface.coefficientOfRestitution ∧
    (groundCheck b).vx = b.vx * 0.8 + (b.spinRPM / 5000) * 2 ∧
    (groundCheck b).spinRPM = b.spinRPM * 0.7 ∧
    (groundCheck b).bounceCount = b.bounceCount + 1 := by
  simp only [groundCheck]
  rw [if_pos hy, if_neg hterm]
  exact ⟨rfl, rfl, rfl, rfl, rfl⟩

/-- C4 witness: a concrete bounce on clay, vy = -4, vx = 3, spin = 1000. -/
theorem ground_bounce_formula_witness :
    (groundCheck ballAtGround).y = 0 ∧
    (groundCheck ballAtGround).vy =
      -ballAtGround.vy * ballAtGround.surface.coefficientOfRestitution ∧
    (groundCheck ballAtGround).vx =
      ballAtGround.vx * 0.8 + (ballAtGround.spinRPM / 5000) * 2 ∧
    (groundCheck ballAtGround).spinRPM = ballAtGround.spinRPM * 0.7 ∧
    (groundCheck ballAtGround).bounceCount = ballAtGround.bounceCount + 1 :=
  ground_bounce_formula ballAtGround rfl (by norm_num [ballAtGround])
    (by norm_num [ballAtGround, clayCourt, abs_lt])

/-- C5: after a ground bounce, when the post-restitution |vy| is below 0.1
or the bounce count exceeds 10, the ball transitions to rest with both
velocity components zero; and along every run of ticks from a launch the
bounce count never exceeds 11. -/
theorem bounce_terminal_and_count_bound :
    (∀ b : TennisBall, b.y ≤ 0 →
      (|-b.vy * b.surface.coefficientOfRestitution| < 0.1 ∨ b.bounceCount + 1 > 10) →
      (groundCheck b).isActive = false ∧ (groundCheck b).vy = 0 ∧
      (groundCheck b).vx = 0) ∧
    (∀ (f a s : ℝ) (b : TennisBall) (l : List (ℝ × ℕ)),
      (runTicks l (resetForHorizontalShot f a s b)).bounceCount ≤ 11) := by
  constructor
  · intro b hy hterm
    simp only [groundCheck]
    rw [if_pos hy, if_pos hterm]
    exact ⟨rfl, rfl, rfl⟩
  · intro f a s b l
    exact (runTicks_bcInv l _ (resetForHorizontalShot_bcInv f a s b)).2

/-- C5 witness: a bounce whose restitution leaves |vy| = 0.0375 < 0.1
comes to rest with zero velocities. -/
theorem bounce_terminal_and_count_bound_witness :
    (groundCheck ballTerminal).isActive = false ∧
    (groundCheck ballTerminal).vy = 0 ∧ (groundCheck ballTerminal).vx = 0 :=
  bounce_terminal_and_count_bound.1 ballTerminal (by norm_num [ballTerminal])
    (by norm_num [ballTerminal, clayCourt, abs_lt])

/-- C6: a net-plane crossing whose interpolated height is strictly above
netHeight + ballRadius leaves position, velocity and spin exactly as the
integration step produced them. -/
theorem net_clearance_no_change (prevX prevY : ℝ) (r : ℕ) (b : TennisBall)
    (hcross : crossedNet prevX b.x)
    (hclear : NET_HEIGHT + BALL_RADIUS <
      prevY + (NET_X - prevX) / (b.x - prevX) * (b.y - prevY)) :
    netCheck prevX prevY r b = b := by
  simp only [netCheck]
  rw [if_pos hcross, if_neg (not_le.mpr hclear)]

/-- C6 witness: a crossing from (11, 5) to (12, 5) interpolates to height 5,
above the tape, and the net check is the identity. -/
theorem net_clearance_no_change_witness :
    netCheck 11 5 0 ballClearsNet = ballClearsNet :=
  net_clearance_no_change 11 5 0 ballClearsNet
    (by norm_num [crossedNet, ballClearsNet, NET_X, COURT_LENGTH])
    (by norm_num [ballClearsNet, NET_X, COURT_LENGTH, NET_HEIGHT, BALL_RADIUS])

theorem netCheck_not_crossed (prevX prevY : ℝ) (r : ℕ) (b : TennisBall)
    (h : ¬ crossedNet prevX b.x) : netCheck prevX prevY r b = b := by
  simp only [netCheck]
  rw [if_neg h]

theorem groundCheck_above (b : TennisBall) (h : 0 < b.y) : groundCheck b = b := by
  simp only [groundCheck]
  rw [if_neg (not_le.mpr h)]

theorem outOfBoundsCheck_in (b : TennisBall) (h1 : 0 ≤ b.x)
    (h2 : b.x ≤ COURT_LENGTH) : outOfBoundsCheck b = b := by
  simp only [outOfBoundsCheck]
  rw [if_neg]
  push_neg
  exact ⟨h1, h2⟩

theorem integrate_free (dt : ℝ) (b : TennisBall)
    (hspin : b.spinRPM = 0) (hdrag : b.airResistanceCoeff = 0) :
    integrate dt b =
      { b with time := b.time + dt, vy := b.vy - GRAVITY * dt,
               y := b.y + (b.vy - GRAVITY * dt) * dt, x := b.x + b.vx * dt } := by
  simp [integrate, hspin, hdrag]

theorem update_free_flight (dt : ℝ) (r : ℕ) (b : TennisBall)
    (hact : b.isActive = true) (hspin : b.spinRPM = 0)
    (hdrag : b.airResistanceCoeff = 0) (hfree : freeStep dt b) :
    update dt r b =
      { b with time := b.time + dt, vy := b.vy - GRAVITY * dt,
               y := b.y + (b.vy - GRAVITY * dt) * dt, x := b.x + b.vx * dt,
               trajectory := b.trajectory ++
                 [⟨b.time + dt, b.y + (b.vy - GRAVITY * dt) * dt⟩] } := by
  obtain ⟨hc, hy, hx1, hx2⟩ := hfree
  unfold update
  rw [if_pos hact, netCheck_not_crossed b.x b.y r (integrate dt b) hc]
  have h2 : groundCheck (recordTrajectory (integrate dt b)) =
      recordTrajectory (integrate dt b) :=
    groundCheck_above _ (by rw [recordTrajectory_y]; exact hy)
  have h3 : outOfBoundsCheck (recordTrajectory (integrate dt b)) =
      recordTrajectory (integrate dt b) :=
    outOfBoundsCheck_in _ (by rw [recordTrajectory_x]; exact hx1)
      (by rw [recordTrajectory_x]; exact hx2)
  rw [h2, h3, integrate_free dt b hspin hdrag]
  rfl

theorem iterate_free_flight (dt : ℝ) (r : ℕ) (b0 : TennisBall)
    (hact : b0.isActive = true) (hspin : b0.spinRPM = 0)
    (hdrag : b0.airResistanceCoeff = 0) (n : ℕ)
    (hfree : ∀ k, k < n → freeStep dt (iterateUpdate dt r k b0)) :
    (iterateUpdate dt r n b0).isActive = true ∧
    (iterateUpdate dt r n b0).spinRPM = 0 ∧
    (iterateUpdate dt r n b0).airResistanceCoeff = 0 ∧
    (iterateUpdate dt r n b0).vy = b0.vy - GRAVITY * (n * dt) ∧
    (iterateUpdate dt r n b0).y
      = b0.y + b0.vy * (n * dt) - GRAVITY / 2 * ((n * dt) * (n * dt + dt)) := by
  induction n with
  | zero =>
    refine ⟨hact, hspin, hdrag, ?_, ?_⟩ <;> simp [iterateUpdate]
  | succ n ih =>
    obtain ⟨ha, hs, hd, hv, hy⟩ := ih (fun k hk => hfree k (Nat.lt_succ_of_lt hk))
    have hstep := update_free_flight dt r (iterateUpdate dt r n b0) ha hs hd
      (hfree n (Nat.lt_succ_self n))
    rw [show iterateUpdate dt r (n + 1) b0
          = update dt r (iterateUpdate dt r n b0) from rfl, hstep]
    refine ⟨ha, hs, hd, ?_, ?_⟩
    · show (iterateUpdate dt r n b0).vy - GRAVITY * dt
        = b0.vy - GRAVITY * ((n + 1 : ℕ) * dt)
      rw [hv]
      push_cast
      ring
    · show (iterateUpdate dt r n b0).y
          + ((iterateUpdate dt r n b0).vy - GRAVITY * dt) * dt
        = b0.y + b0.vy * ((n + 1 : ℕ) * dt)
          - GRAVITY / 2 * (((n + 1 : ℕ) * dt) * ((n + 1 : ℕ) * dt + dt))
      rw [hv, hy]
      push_cast
      ring

/-- C3 counterexample: one update step of dt = 1 from height 2 with upward
speed 10, zero spin and zero drag, yields height 2.19, while the exact
parabola y0 + vy0 t - g t^2 / 2 gives 7.095 at t = 1: the semi-implicit
integrator deviates by g dt t / 2, which is an integration offset far
beyond floating-point rounding, so the trajectory is not the exact
parabola within floating-point tolerance. -/
theorem parabola_claim_counterexample :
    (update 1 0 ballParabola).y = 2.19 ∧
    ballParabola.y + ballParabola.vy * 1 - GRAVITY / 2 * 1 ^ 2 = 7.095 ∧
    (2.19 : ℝ) ≠ 7.095 := by
  have h := update_free_flight 1 0 ballParabola rfl rfl rfl (by
    unfold freeStep
    rw [integrate_free 1 ballParabola rfl rfl]
    norm_num [ballParabola, crossedNet, NET_X, COURT_LENGTH, GRAVITY])
  refine ⟨?_, ?_, by norm_num⟩
  · rw [h]
    show ballParabola.y + (ballParabola.vy - GRAVITY * 1) * 1 = 2.19
    norm_num [ballParabola, GRAVITY]
  · norm_num [ballParabola, GRAVITY]

/-- C3 amended: with zero spin and zero drag, as long as no collision
intervenes, the discrete height follows the exact closed form
y0 + vy0 t - g/2 t (t + dt) at t = n dt, exactly (in exact arithmetic): a
parabola offset by the semi-implicit half-step term g dt t / 2, not the
ideal parabola up to floating-point rounding. -/
theorem free_flight_closed_form (dt : ℝ) (r : ℕ) (b0 : TennisBall)
    (hact : b0.isActive = true) (hspin : b0.spinRPM = 0)
    (hdrag : b0.airResistanceCoeff = 0) (n : ℕ)
    (hfree : ∀ k, k < n → freeStep dt (iterateUpdate dt r k b0)) :
    (iterateUpdate dt r n b0).y
      = b0.y + b0.vy * (n * dt) - GRAVITY / 2 * ((n * dt) * (n * dt + dt)) :=
  (iterate_free_flight dt r b0 hact hspin hdrag n hfree).2.2.2.2

/-- C3 amended witness: the closed form evaluated after one step of dt = 1
from the concrete launch state. -/
theorem free_flight_closed_form_witness :
    (iterateUpdate 1 0 1 ballParabola).y
      = ballParabola.y + ballParabola.vy * ((1 : ℕ) * 1)
        - GRAVITY / 2 * (((1 : ℕ) * 1) * ((1 : ℕ) * 1 + 1)) :=
  free_flight_closed_form 1 0 ballParabola rfl rfl rfl 1 (by
    intro k hk
    have hk0 : k = 0 := by omega
    subst hk0
    show freeStep 1 ballParabola
    unfold freeStep
    rw [integrate_free 1 ballParabola rfl rfl]
    norm_num [ballParabola, crossedNet, NET_X, COURT_LENGTH, GRAVITY])

/-- C1 counterexample: on a net hit with incoming vx = 10 the resolver sets
vx to -2 = -(1 - 0.8) * 10, reversing the sign, not to (1 - 0.8) * 10 = 2
as the claim's sign-preserving reading requires. -/
theorem net_hit_vx_sign_counterexample :
    ballNetHit.vx = 10 ∧
    (netCheck 11 0.5 50 ballNetHit).vx = -2 ∧
    ¬ (netCheck 11 0.5 50 ballNetHit).vx = (1 - 0.8) * ballNetHit.vx := by
  have hv : (netCheck 11 0.5 50 ballNetHit).vx = -2 := by
    norm_num [netCheck, ballNetHit, crossedNet, NET_X, COURT_LENGTH, NET_HEIGHT,
      BALL_RADIUS, NET_ABSORPTION, randomDeflection, abs_lt]
  refine ⟨rfl, hv, ?_⟩
  rw [hv]
  norm_num [ballNetHit]

/-- C1 amended: a net hit snaps x to the net plane and y to the interpolated
crossing height, multiplies vy and spin by (1 - 0.8) and adds the bounded
random vertical deflection to vy, and sets vx to -(1 - 0.8) times its
value — an explicit sign reflection, so the ball rebounds backward off the
net (vx is zeroed instead when both resulting components are below 0.5). -/
theorem net_hit_resolution (prevX prevY : ℝ) (r : ℕ) (b : TennisBall)
    (hcross : crossedNet prevX b.x)
    (hhit : prevY + (NET_X - prevX) / (b.x - prevX) * (b.y - prevY)
      ≤ NET_HEIGHT + BALL_RADIUS)
    (hfast : ¬(|-b.vx * (1 - NET_ABSORPTION)| < 0.5 ∧
               |b.vy * (1 - NET_ABSORPTION) + randomDeflection r| < 0.5)) :
    (netCheck prevX prevY r b).x = NET_X ∧
    (netCheck prevX prevY r b).y
      = prevY + (NET_X - prevX) / (b.x - prevX) * (b.y - prevY) ∧
    (netCheck prevX prevY r b).vx = -b.vx * (1 - NET_ABSORPTION) ∧
    (netCheck prevX prevY r b).vy
      = b.vy * (1 - NET_ABSORPTION) + randomDeflection r ∧
    (netCheck prevX prevY r b).spinRPM = b.spinRPM * (1 - NET_ABSORPTION) := by
  simp only [netCheck]
  rw [if_pos hcross, if_pos hhit, if_neg hfast]
  exact ⟨rfl, rfl, rfl, rfl, rfl⟩

/-- C1 amended witness: the concrete net hit from (11, 0.5) to (12, 0.5)
with vx = 10, vy = -1, spin = 1000 and rand() draw 50. -/
theorem net_hit_resolution_witness :
    (netCheck 11 0.5 50 ballNetHit).x = NET_X ∧
    (netCheck 11 0.5 50 ballNetHit).y
      = 0.5 + (NET_X - 11) / (ballNetHit.x - 11) * (ballNetHit.y - 0.5) ∧
    (netCheck 11 0.5 50 ballNetHit).vx = -ballNetHit.vx * (1 - NET_ABSORPTION) ∧
    (netCheck 11 0.5 50 ballNetHit).vy
      = ballNetHit.vy * (1 - NET_ABSORPTION) + randomDeflection 50 ∧
    (netCheck 11 0.5 50 ballNetHit).spinRPM
      = ballNetHit.spinRPM * (1 - NET_ABSORPTION) :=
  net_hit_resolution 11 0.5 50 ballNetHit
    (by norm_num [crossedNet, ballNetHit, NET_X, COURT_LENGTH])
    (by norm_num [ballNetHit, NET_X, COURT_LENGTH, NET_HEIGHT, BALL_RADIUS])
    (by norm_num [ballNetHit, NET_ABSORPTION, randomDeflection, abs_lt])

end TennisSim
